import Mathlib

/-! The CKB entry point of the MMR verifier (`c/ckb_mmr_entry.c`)

A shallow embedding of `main`: the three `ckb_load_witness` calls, the size
check on the root, the decoding of the MMR size, the two reader bindings and
the final call of `mmr_verify`.

The host (the CKB syscall) and the verifier (`mmr_verify` of `ckb_mmr.h`) are
not part of the translated file; they are arguments of the model, so every
general theorem holds for every host and every verifier.  The stack arrays of
`main` are uninitialised in C: their earlier contents are an argument as well.
-/

namespace MmrEntry

/-! ## Data model -/

/-- One `uint8_t`. -/
abbrev Byte := Fin 256

/-- Number of values of a `uint64_t`. -/
def UINT64_MOD : Nat := 2 ^ 64

/-- Modelled from the spec: the constant `CKB_SUCCESS` of `ckb_syscalls.h`
(not part of the translated file); the contract takes it to be `0`. -/
def CKB_SUCCESS : Int := 0

/-- Modelled from the spec: the constant `CKB_SOURCE_INPUT` of
`ckb_syscalls.h` (not part of the translated file), the tag of the channel
the three buffers are read from. -/
def CKB_SOURCE_INPUT : Nat := 1

/-- What the host answers to one `ckb_load_witness` call: the return code,
the value it stores to `*len`, and the bytes it writes from the start of the
buffer. -/
structure LoadResp where
  ret : Int
  len : Nat
  data : List Byte
  deriving DecidableEq, Repr

/-- The host: its answer for each (offset, index, source). -/
abbrev Host := Nat → Nat → Nat → LoadResp

/-- Earlier contents of the stack slots in which `main` places its three
arrays, byte by byte. -/
structure Stack where
  root_buffer : Nat → Byte
  proof_buffer : Nat → Byte
  leaves_buffer : Nat → Byte

/-- A fresh (uninitialised) stack array of `n` bytes: it holds whatever the
slot held before, from offset `off` on. -/
def stackArray (mem : Nat → Byte) : Nat → Nat → List Byte
  | _, 0 => []
  | off, n + 1 => mem off :: stackArray mem (off + 1) n

/-- The struct `mmr_default_buffer_reader_t`: a start pointer, here the bytes
of the underlying array from that pointer to the end of the array, and the
length the reader was given. -/
structure mmr_default_buffer_reader_t where
  buffer : List Byte
  length : Nat
  deriving DecidableEq, Repr

/-- Modelled from the spec: `mmr_default_buffer_reader_init` of `ckb_mmr.h`
(not part of the translated file): "binds a reader to a caller-owned,
caller-sized region; does not copy". -/
def mmr_default_buffer_reader_init (buffer : List Byte) (length : Nat) :
    mmr_default_buffer_reader_t :=
  { buffer := buffer, length := length }

/-- The bytes a reader will hand out: the first `length` bytes behind its
start pointer. -/
def mmr_default_buffer_reader_t.contents (r : mmr_default_buffer_reader_t) : List Byte :=
  r.buffer.take r.length

/-- The five arguments of one `mmr_verify` call. -/
structure VerifyArgs where
  root : List Byte
  root_len : Nat
  mmr_size : Nat
  proof_reader : mmr_default_buffer_reader_t
  leaf_reader : mmr_default_buffer_reader_t
  deriving DecidableEq, Repr

/-- The verifier `mmr_verify` of `ckb_mmr.h`, as `main` sees it: an `int` for
each argument tuple. -/
abbrev Verifier := VerifyArgs → Int

/-- A call `main` made to one of its collaborators, with what came back. -/
inductive Call where
  | load (index : Nat) (ret : Int) (len : Nat)
  | verify (args : VerifyArgs) (ret : Int)
  deriving DecidableEq, Repr

/-- One run of `main`: the exit code, the messages `main` itself passed to
`ckb_debug`, and the calls it made, in order. -/
structure Outcome where
  exit : Int
  log : List String
  trace : List Call
  deriving DecidableEq, Repr

/-! ## Operations -/

/-- The syscall `ckb_load_witness(buf, &len, offset, index, source)`: the host
writes at most `len` bytes (and never past the array) from the start of `buf`
and stores a 64-bit value to `*len`.  Result: return code, buffer, `*len`. -/
def ckb_load_witness (host : Host) (buf : List Byte) (len : Nat)
    (offset index source : Nat) : Int × List Byte × Nat :=
  let r := host offset index source
  let written := r.data.take (min len buf.length)
  (r.ret, written ++ buf.drop written.length, r.len % UINT64_MOD)

/-- The read `*((uint64_t *) p)` on the little-endian target (RISC-V): the
eight bytes at `p`, lowest byte first. -/
def load_u64 (p : List Byte) : Nat :=
  (p.take 8).foldr (fun b acc => b.val + 256 * acc) 0

/-- The function `main` of `ckb_mmr_entry.c`. -/
def main (host : Host) (mmr_verify : Verifier) (stack : Stack) : Outcome :=
  let root_buffer := stackArray stack.root_buffer 0 32
  let len := 32
  let (ret, root_buffer, len) := ckb_load_witness host root_buffer len 0 0 CKB_SOURCE_INPUT
  let trace := [Call.load 0 ret len]
  if ret ≠ CKB_SUCCESS then
    { exit := ret, log := [], trace := trace }
  else if len ≠ 32 then
    { exit := -1, log := ["Error loading root buffer"], trace := trace }
  else
    let proof_buffer := stackArray stack.proof_buffer 0 (32 * 1024)
    let proof_length := 32 * 1024
    let (ret, proof_buffer, proof_length) :=
      ckb_load_witness host proof_buffer proof_length 0 3 CKB_SOURCE_INPUT
    let trace := trace ++ [Call.load 3 ret proof_length]
    if ret ≠ CKB_SUCCESS then
      { exit := ret, log := [], trace := trace }
    else
      let leaves_buffer := stackArray stack.leaves_buffer 0 (32 * 1024)
      let leaves_length := 32 * 1024
      let (ret, leaves_buffer, leaves_length) :=
        ckb_load_witness host leaves_buffer leaves_length 0 2 CKB_SOURCE_INPUT
      let trace := trace ++ [Call.load 2 ret leaves_length]
      if ret ≠ CKB_SUCCESS then
        { exit := ret, log := [], trace := trace }
      else
        let mmr_size := load_u64 proof_buffer
        let proof_buffer_reader :=
          mmr_default_buffer_reader_init (proof_buffer.drop 8)
            ((proof_length + UINT64_MOD - 8) % UINT64_MOD)
        let leaf_buffer_reader :=
          mmr_default_buffer_reader_init leaves_buffer leaves_length
        let args : VerifyArgs :=
          { root := root_buffer, root_len := 32, mmr_size := mmr_size,
            proof_reader := proof_buffer_reader, leaf_reader := leaf_buffer_reader }
        let ret := mmr_verify args
        { exit := ret, log := [], trace := trace ++ [Call.verify args ret] }

/-! ## Observations used in the statements -/

/-- The answer of the host to the root load (offset 0, index 0). -/
def rootResp (host : Host) : LoadResp := host 0 0 CKB_SOURCE_INPUT

/-- The answer of the host to the proof load (offset 0, index 3). -/
def proofResp (host : Host) : LoadResp := host 0 3 CKB_SOURCE_INPUT

/-- The answer of the host to the leaves load (offset 0, index 2). -/
def leavesResp (host : Host) : LoadResp := host 0 2 CKB_SOURCE_INPUT

/-- The length `main` sees after a load: the 64-bit value stored to `*len`. -/
def LoadResp.reported (r : LoadResp) : Nat := r.len % UINT64_MOD

/-- The root load exactly as `main` performs it (line 12). -/
def rootLoad (host : Host) (stack : Stack) : Int × List Byte × Nat :=
  ckb_load_witness host (stackArray stack.root_buffer 0 32) 32 0 0 CKB_SOURCE_INPUT

/-- The proof load exactly as `main` performs it (line 23). -/
def proofLoad (host : Host) (stack : Stack) : Int × List Byte × Nat :=
  ckb_load_witness host (stackArray stack.proof_buffer 0 (32 * 1024)) (32 * 1024) 0 3
    CKB_SOURCE_INPUT

/-- The leaves load exactly as `main` performs it (line 30). -/
def leavesLoad (host : Host) (stack : Stack) : Int × List Byte × Nat :=
  ckb_load_witness host (stackArray stack.leaves_buffer 0 (32 * 1024)) (32 * 1024) 0 2
    CKB_SOURCE_INPUT

/-- The argument tuple `main` builds once the three loads are done (lines 35 to 45);
`main_all_loaded` shows it is the tuple `main` hands to `mmr_verify`. -/
def builtArgs (host : Host) (stack : Stack) : VerifyArgs :=
  { root := (rootLoad host stack).2.1, root_len := 32,
    mmr_size := load_u64 (proofLoad host stack).2.1,
    proof_reader := mmr_default_buffer_reader_init ((proofLoad host stack).2.1.drop 8)
      (((proofLoad host stack).2.2 + UINT64_MOD - 8) % UINT64_MOD),
    leaf_reader := mmr_default_buffer_reader_init (leavesLoad host stack).2.1
      (leavesLoad host stack).2.2 }

/-! ## Concrete hosts, stacks and verifiers -/

/-- A stack whose slots held zero bytes. -/
def zeroStack : Stack :=
  { root_buffer := fun _ => 0, proof_buffer := fun _ => 0, leaves_buffer := fun _ => 0 }

/-- A stack whose slots held bytes of value one. -/
def onesStack : Stack :=
  { root_buffer := fun _ => 1, proof_buffer := fun _ => 1, leaves_buffer := fun _ => 1 }

/-- A host whose root witness has 31 bytes. -/
def shortRootHost : Host := fun _ _ _ => { ret := 0, len := 31, data := List.replicate 31 0 }

/-- A host on which the load of witness `index` fails with `code`, the other
loads succeed. -/
def failingHost (index : Nat) (code : Int) : Host := fun _ i _ =>
  if i = index then { ret := code, len := 0, data := [] }
  else if i = 0 then { ret := 0, len := 32, data := List.replicate 32 0 }
  else { ret := 0, len := 8, data := List.replicate 8 0 }

/-- A host with a 32-byte root, a 9-byte proof (size header 513, one more
byte) and a 2-byte leaves witness. -/
def goodHost : Host := fun _ i _ =>
  if i = 0 then { ret := 0, len := 32, data := List.replicate 32 7 }
  else if i = 3 then { ret := 0, len := 9, data := [1, 2, 0, 0, 0, 0, 0, 0, 9] }
  else { ret := 0, len := 2, data := [5, 6] }

/-- A host whose proof witness has only 4 bytes and whose leaves witness is
empty. -/
def shortProofHost : Host := fun _ i _ =>
  if i = 0 then { ret := 0, len := 32, data := List.replicate 32 0 }
  else if i = 3 then { ret := 0, len := 4, data := [0, 0, 0, 0] }
  else { ret := 0, len := 0, data := [] }

/-- A host whose proof and leaves witnesses have 40000 bytes: as the CKB
syscall does, it fills the 32768-byte buffer and reports the full length. -/
def oversizeHost : Host := fun _ i _ =>
  if i = 0 then { ret := 0, len := 32, data := List.replicate 32 0 }
  else { ret := 0, len := 40000, data := List.replicate (32 * 1024) 0 }

/-- A verifier that accepts every argument tuple. -/
def acceptAll : Verifier := fun _ => 0

/-- A verifier that fails with `code` on every argument tuple. -/
def rejectWith (code : Int) : Verifier := fun _ => code

/-- A verifier whose verdict depends on the MMR size it is handed. -/
def sizeIsZero : Verifier := fun args => if args.mmr_size = 0 then 0 else 1

/-! ## Auxiliary facts about the buffers -/

theorem length_stackArray (mem : Nat → Byte) (off n : Nat) :
    (stackArray mem off n).length = n := by
  induction n generalizing off with
  | zero => rfl
  | succ n ih => simp [stackArray, ih]

theorem length_load (host : Host) (buf : List Byte) (len o i s : Nat) :
    (ckb_load_witness host buf len o i s).2.1.length = buf.length := by
  simp only [ckb_load_witness, List.length_append, List.length_take, List.length_drop]
  omega

theorem load_fits (host : Host) (buf : List Byte) (o i s : Nat)
    (h : (host o i s).data.length ≤ buf.length) :
    (ckb_load_witness host buf buf.length o i s).2.1 =
      (host o i s).data ++ buf.drop (host o i s).data.length := by
  simp only [ckb_load_witness, Nat.min_self]
  rw [List.take_of_length_le h]

theorem rootLoad_length (host : Host) (stack : Stack) :
    (rootLoad host stack).2.1.length = 32 := by
  simp [rootLoad, length_load, length_stackArray]

theorem proofLoad_length (host : Host) (stack : Stack) :
    (proofLoad host stack).2.1.length = 32 * 1024 := by
  simp [proofLoad, length_load, length_stackArray]

theorem leavesLoad_length (host : Host) (stack : Stack) :
    (leavesLoad host stack).2.1.length = 32 * 1024 := by
  simp [leavesLoad, length_load, length_stackArray]

theorem proofLoad_reported (host : Host) (stack : Stack) :
    (proofLoad host stack).2.2 = (proofResp host).reported := rfl

theorem leavesLoad_reported (host : Host) (stack : Stack) :
    (leavesLoad host stack).2.2 = (leavesResp host).reported := rfl

theorem rootLoad_fits (host : Host) (stack : Stack)
    (h : (rootResp host).data.length = 32) :
    (rootLoad host stack).2.1 = (rootResp host).data := by
  have hfit := load_fits host (stackArray stack.root_buffer 0 32) 0 0 CKB_SOURCE_INPUT
    (by rw [length_stackArray]; exact le_of_eq h)
  rw [length_stackArray] at hfit
  rw [rootLoad, hfit]
  have h' : (host 0 0 CKB_SOURCE_INPUT).data.length = 32 := h
  rw [h', List.drop_of_length_le (by rw [length_stackArray])]
  simp [rootResp]

theorem proofLoad_fits (host : Host) (stack : Stack)
    (h : (proofResp host).data.length ≤ 32 * 1024) :
    (proofLoad host stack).2.1 = (proofResp host).data ++
      (stackArray stack.proof_buffer 0 (32 * 1024)).drop (proofResp host).data.length := by
  have hfit := load_fits host (stackArray stack.proof_buffer 0 (32 * 1024)) 0 3
    CKB_SOURCE_INPUT (by rw [length_stackArray]; exact h)
  rw [length_stackArray] at hfit
  exact hfit

theorem leavesLoad_fits (host : Host) (stack : Stack)
    (h : (leavesResp host).data.length ≤ 32 * 1024) :
    (leavesLoad host stack).2.1 = (leavesResp host).data ++
      (stackArray stack.leaves_buffer 0 (32 * 1024)).drop (leavesResp host).data.length := by
  have hfit := load_fits host (stackArray stack.leaves_buffer 0 (32 * 1024)) 0 2
    CKB_SOURCE_INPUT (by rw [length_stackArray]; exact h)
  rw [length_stackArray] at hfit
  exact hfit

theorem proofLoad_short (stack : Stack) :
    (proofLoad shortProofHost stack).2.1.take 8 =
      [0, 0, 0, 0, stack.proof_buffer 4, stack.proof_buffer 5, stack.proof_buffer 6,
        stack.proof_buffer 7] := by
  rw [proofLoad_fits shortProofHost stack (by decide)]
  rfl

theorem load_u64_eq_sum (p : List Byte) (h : 8 ≤ p.length) :
    load_u64 p = ∑ i in Finset.range 8, (p.getD i 0).val * 256 ^ i := by
  rcases p with _ | ⟨a, _ | ⟨b, _ | ⟨c, _ | ⟨d, _ | ⟨e, _ | ⟨f, _ | ⟨g, _ | ⟨k, t⟩⟩⟩⟩⟩⟩⟩⟩ <;>
    simp at h
  simp [load_u64, Finset.sum_range_succ]
  ring

theorem sub8_in_range (L : Nat) (h8 : 8 ≤ L) (hL : L < UINT64_MOD) :
    (L + UINT64_MOD - 8) % UINT64_MOD = L - 8 := by
  unfold UINT64_MOD at *
  omega

/-! ## The five paths through `main` -/

theorem main_root_fail (host : Host) (v : Verifier) (stack : Stack)
    (h : (host 0 0 CKB_SOURCE_INPUT).ret ≠ CKB_SUCCESS) :
    main host v stack =
      { exit := (host 0 0 CKB_SOURCE_INPUT).ret, log := [],
        trace := [Call.load 0 (host 0 0 CKB_SOURCE_INPUT).ret
          ((host 0 0 CKB_SOURCE_INPUT).len % UINT64_MOD)] } := by
  simp [main, ckb_load_witness, h]

theorem main_root_size (host : Host) (v : Verifier) (stack : Stack)
    (h : (host 0 0 CKB_SOURCE_INPUT).ret = CKB_SUCCESS)
    (hl : (host 0 0 CKB_SOURCE_INPUT).len % UINT64_MOD ≠ 32) :
    main host v stack =
      { exit := -1, log := ["Error loading root buffer"],
        trace := [Call.load 0 CKB_SUCCESS
          ((host 0 0 CKB_SOURCE_INPUT).len % UINT64_MOD)] } := by
  simp [main, ckb_load_witness, h, hl]

theorem main_proof_fail (host : Host) (v : Verifier) (stack : Stack)
    (h : (host 0 0 CKB_SOURCE_INPUT).ret = CKB_SUCCESS)
    (hl : (host 0 0 CKB_SOURCE_INPUT).len % UINT64_MOD = 32)
    (h3 : (host 0 3 CKB_SOURCE_INPUT).ret ≠ CKB_SUCCESS) :
    main host v stack =
      { exit := (host 0 3 CKB_SOURCE_INPUT).ret, log := [],
        trace := [Call.load 0 CKB_SUCCESS 32,
          Call.load 3 (host 0 3 CKB_SOURCE_INPUT).ret
            ((host 0 3 CKB_SOURCE_INPUT).len % UINT64_MOD)] } := by
  simp [main, ckb_load_witness, h, hl, h3]

theorem main_leaves_fail (host : Host) (v : Verifier) (stack : Stack)
    (h : (host 0 0 CKB_SOURCE_INPUT).ret = CKB_SUCCESS)
    (hl : (host 0 0 CKB_SOURCE_INPUT).len % UINT64_MOD = 32)
    (h3 : (host 0 3 CKB_SOURCE_INPUT).ret = CKB_SUCCESS)
    (h2 : (host 0 2 CKB_SOURCE_INPUT).ret ≠ CKB_SUCCESS) :
    main host v stack =
      { exit := (host 0 2 CKB_SOURCE_INPUT).ret, log := [],
        trace := [Call.load 0 CKB_SUCCESS 32,
          Call.load 3 CKB_SUCCESS ((host 0 3 CKB_SOURCE_INPUT).len % UINT64_MOD),
          Call.load 2 (host 0 2 CKB_SOURCE_INPUT).ret
            ((host 0 2 CKB_SOURCE_INPUT).len % UINT64_MOD)] } := by
  simp [main, ckb_load_witness, h, hl, h3, h2]

theorem main_all_loaded (host : Host) (v : Verifier) (stack : Stack)
    (h : (host 0 0 CKB_SOURCE_INPUT).ret = CKB_SUCCESS)
    (hl : (host 0 0 CKB_SOURCE_INPUT).len % UINT64_MOD = 32)
    (h3 : (host 0 3 CKB_SOURCE_INPUT).ret = CKB_SUCCESS)
    (h2 : (host 0 2 CKB_SOURCE_INPUT).ret = CKB_SUCCESS) :
    main host v stack =
      { exit := v (builtArgs host stack), log := [],
        trace := [Call.load 0 CKB_SUCCESS 32,
          Call.load 3 CKB_SUCCESS ((host 0 3 CKB_SOURCE_INPUT).len % UINT64_MOD),
          Call.load 2 CKB_SUCCESS ((host 0 2 CKB_SOURCE_INPUT).len % UINT64_MOD),
          Call.verify (builtArgs host stack) (v (builtArgs host stack))] } := by
  simp [main, builtArgs, rootLoad, proofLoad, leavesLoad, ckb_load_witness, h, hl, h3, h2]

/-- Every run of `main` takes exactly one of five paths: root load failed,
root size mismatch, proof load failed, leaves load failed, verifier called. -/
theorem main_cases (host : Host) (v : Verifier) (stack : Stack) :
    ((rootResp host).ret ≠ CKB_SUCCESS ∧
      main host v stack =
        { exit := (rootResp host).ret, log := [],
          trace := [Call.load 0 (rootResp host).ret (rootResp host).reported] }) ∨
    ((rootResp host).ret = CKB_SUCCESS ∧ (rootResp host).reported ≠ 32 ∧
      main host v stack =
        { exit := -1, log := ["Error loading root buffer"],
          trace := [Call.load 0 CKB_SUCCESS (rootResp host).reported] }) ∨
    ((rootResp host).ret = CKB_SUCCESS ∧ (rootResp host).reported = 32 ∧
      (proofResp host).ret ≠ CKB_SUCCESS ∧
      main host v stack =
        { exit := (proofResp host).ret, log := [],
          trace := [Call.load 0 CKB_SUCCESS 32,
            Call.load 3 (proofResp host).ret (proofResp host).reported] }) ∨
    ((rootResp host).ret = CKB_SUCCESS ∧ (rootResp host).reported = 32 ∧
      (proofResp host).ret = CKB_SUCCESS ∧ (leavesResp host).ret ≠ CKB_SUCCESS ∧
      main host v stack =
        { exit := (leavesResp host).ret, log := [],
          trace := [Call.load 0 CKB_SUCCESS 32,
            Call.load 3 CKB_SUCCESS (proofResp host).reported,
            Call.load 2 (leavesResp host).ret (leavesResp host).reported] }) ∨
    ((rootResp host).ret = CKB_SUCCESS ∧ (rootResp host).reported = 32 ∧
      (proofResp host).ret = CKB_SUCCESS ∧ (leavesResp host).ret = CKB_SUCCESS ∧
      main host v stack =
        { exit := v (builtArgs host stack), log := [],
          trace := [Call.load 0 CKB_SUCCESS 32,
            Call.load 3 CKB_SUCCESS (proofResp host).reported,
            Call.load 2 CKB_SUCCESS (leavesResp host).reported,
            Call.verify (builtArgs host stack) (v (builtArgs host stack))] }) := by
  unfold rootResp proofResp leavesResp LoadResp.reported
  by_cases h0 : (host 0 0 CKB_SOURCE_INPUT).ret = CKB_SUCCESS
  · by_cases hl : (host 0 0 CKB_SOURCE_INPUT).len % UINT64_MOD = 32
    · by_cases h3 : (host 0 3 CKB_SOURCE_INPUT).ret = CKB_SUCCESS
      · by_cases h2 : (host 0 2 CKB_SOURCE_INPUT).ret = CKB_SUCCESS
        · exact Or.inr (Or.inr (Or.inr (Or.inr
            ⟨h0, hl, h3, h2, main_all_loaded host v stack h0 hl h3 h2⟩)))
        · exact Or.inr (Or.inr (Or.inr (Or.inl
            ⟨h0, hl, h3, h2, main_leaves_fail host v stack h0 hl h3 h2⟩)))
      · exact Or.inr (Or.inr (Or.inl ⟨h0, hl, h3, main_proof_fail host v stack h0 hl h3⟩))
    · exact Or.inr (Or.inl ⟨h0, hl, main_root_size host v stack h0 hl⟩)
  · exact Or.inl ⟨h0, main_root_fail host v stack h0⟩

theorem exit_of_last_load (host : Host) (v : Verifier) (stack : Stack) (idx : Nat) (c : Int)
    (len : Nat) (h : (main host v stack).trace.getLast? = some (Call.load idx c len))
    (hc : c ≠ CKB_SUCCESS) : (main host v stack).exit = c := by
  rcases main_cases host v stack with ⟨h0, hm⟩ | ⟨h0, hl, hm⟩ | ⟨h0, hl, h3, hm⟩ |
    ⟨h0, hl, h3, h2, hm⟩ | ⟨h0, hl, h3, h2, hm⟩ <;> rw [hm] at h ⊢ <;> simp at h
  · exact h.2.1
  · exact absurd h.2.1.symm hc
  · exact h.2.1
  · exact h.2.1

theorem exit_of_last_verify (host : Host) (v : Verifier) (stack : Stack) (args : VerifyArgs)
    (r : Int) (h : (main host v stack).trace.getLast? = some (Call.verify args r)) :
    (main host v stack).exit = r := by
  rcases main_cases host v stack with ⟨h0, hm⟩ | ⟨h0, hl, hm⟩ | ⟨h0, hl, h3, hm⟩ |
    ⟨h0, hl, h3, h2, hm⟩ | ⟨h0, hl, h3, h2, hm⟩ <;> rw [hm] at h ⊢ <;> simp at h
  exact h.2

/-! ## The claims -/

/-- Claim C1: for every host and every verifier, `main` returns 0 exactly when
the three loads returned `CKB_SUCCESS`, the reported root length was 32 and
`mmr_verify` was called and returned 0 (first conjunct, on the answers of the
host; second conjunct, on the calls `main` made); and when the three loads
succeed with a 32-byte root the last call is `mmr_verify` and the exit code is
the value it returned. -/
theorem main_exit_zero_iff (host : Host) (v : Verifier) (stack : Stack) :
    ((main host v stack).exit = 0 ↔
      (rootResp host).ret = CKB_SUCCESS ∧ (proofResp host).ret = CKB_SUCCESS ∧
        (leavesResp host).ret = CKB_SUCCESS ∧ (rootResp host).reported = 32 ∧
        ∃ args, Call.verify args 0 ∈ (main host v stack).trace) ∧
    ((main host v stack).exit = 0 ↔
      ∃ l3 l2 args, (main host v stack).trace =
        [Call.load 0 CKB_SUCCESS 32, Call.load 3 CKB_SUCCESS l3, Call.load 2 CKB_SUCCESS l2,
          Call.verify args 0]) ∧
    ((rootResp host).ret = CKB_SUCCESS ∧ (proofResp host).ret = CKB_SUCCESS ∧
        (leavesResp host).ret = CKB_SUCCESS ∧ (rootResp host).reported = 32 →
      ∃ args, (main host v stack).trace.getLast? = some (Call.verify args (v args)) ∧
        (main host v stack).exit = v args) := by
  rcases main_cases host v stack with ⟨h0, hm⟩ | ⟨h0, hl, hm⟩ | ⟨h0, hl, h3, hm⟩ |
    ⟨h0, hl, h3, h2, hm⟩ | ⟨h0, hl, h3, h2, hm⟩
  · rw [hm]
    have h0' : ¬ (rootResp host).ret = 0 := h0
    simp [h0, h0']
  · rw [hm]
    simp [h0, hl]
  · rw [hm]
    have h3' : ¬ (proofResp host).ret = 0 := h3
    simp [h0, hl, h3, h3']
  · rw [hm]
    have h2' : ¬ (leavesResp host).ret = 0 := h2
    simp [h0, hl, h3, h2, h2']
  · rw [hm]
    simp [h0, hl, h3, h2]
    exact eq_comm

/-- Witness of claim C1 on a host whose three loads succeed: the verifier is
called last and its value 0 is the exit code. -/
theorem main_exit_zero_iff_witness :
    ∃ args, (main goodHost acceptAll zeroStack).trace.getLast? =
        some (Call.verify args (acceptAll args)) ∧
      (main goodHost acceptAll zeroStack).exit = acceptAll args :=
  (main_exit_zero_iff goodHost acceptAll zeroStack).2.2
    ⟨by decide, by decide, by decide, by decide⟩

/-- Claim C2: when the root load succeeds but reports a length other than 32,
`main` returns -1 (which is not 0) and the root load is the only call it
made: no proof load, no leaves load, no `mmr_verify`. -/
theorem root_size_mismatch (host : Host) (v : Verifier) (stack : Stack)
    (h0 : (rootResp host).ret = CKB_SUCCESS) (hl : (rootResp host).reported ≠ 32) :
    (main host v stack).exit = -1 ∧ (main host v stack).exit ≠ 0 ∧
      (main host v stack).trace = [Call.load 0 CKB_SUCCESS (rootResp host).reported] := by
  rw [main_root_size host v stack h0 hl]
  simp [rootResp, LoadResp.reported]

/-- Witness of claim C2 on a host whose root witness has 31 bytes. -/
theorem root_size_mismatch_witness :
    (main shortRootHost acceptAll zeroStack).exit = -1 ∧
      (main shortRootHost acceptAll zeroStack).exit ≠ 0 ∧
      (main shortRootHost acceptAll zeroStack).trace =
        [Call.load 0 CKB_SUCCESS (rootResp shortRootHost).reported] :=
  root_size_mismatch shortRootHost acceptAll zeroStack (by decide) (by decide)

/-- Claim C3: a load that returns a code other than `CKB_SUCCESS` is terminal.
Whenever a load with such a code occurs among the calls of `main`, the exit
code is that code, the load is the last call, and `mmr_verify` is never
called; and each of the three loads (root, proof, leaves) ends the run this
way when it is the first to fail, with exactly the earlier loads before it. -/
theorem load_failure_terminal (host : Host) (v : Verifier) (stack : Stack) :
    (∀ idx ret len, Call.load idx ret len ∈ (main host v stack).trace → ret ≠ CKB_SUCCESS →
      (main host v stack).exit = ret ∧
      (main host v stack).trace.getLast? = some (Call.load idx ret len) ∧
      ∀ args r, Call.verify args r ∉ (main host v stack).trace) ∧
    ((rootResp host).ret ≠ CKB_SUCCESS →
      (main host v stack).exit = (rootResp host).ret ∧
      (main host v stack).trace = [Call.load 0 (rootResp host).ret (rootResp host).reported]) ∧
    ((rootResp host).ret = CKB_SUCCESS → (rootResp host).reported = 32 →
      (proofResp host).ret ≠ CKB_SUCCESS →
      (main host v stack).exit = (proofResp host).ret ∧
      (main host v stack).trace = [Call.load 0 CKB_SUCCESS 32,
        Call.load 3 (proofResp host).ret (proofResp host).reported]) ∧
    ((rootResp host).ret = CKB_SUCCESS → (rootResp host).reported = 32 →
      (proofResp host).ret = CKB_SUCCESS → (leavesResp host).ret ≠ CKB_SUCCESS →
      (main host v stack).exit = (leavesResp host).ret ∧
      (main host v stack).trace = [Call.load 0 CKB_SUCCESS 32,
        Call.load 3 CKB_SUCCESS (proofResp host).reported,
        Call.load 2 (leavesResp host).ret (leavesResp host).reported]) := by
  rcases main_cases host v stack with ⟨h0, hm⟩ | ⟨h0, hl, hm⟩ | ⟨h0, hl, h3, hm⟩ |
    ⟨h0, hl, h3, h2, hm⟩ | ⟨h0, hl, h3, h2, hm⟩
  · rw [hm]
    refine ⟨?_, ?_, ?_, ?_⟩
    · intro idx ret len hmem hne
      simp at hmem
      obtain ⟨rfl, rfl, rfl⟩ := hmem
      simp
    · intro _; simp
    · intro h; exact absurd h h0
    · intro h; exact absurd h h0
  · rw [hm]
    refine ⟨?_, ?_, ?_, ?_⟩
    · intro idx ret len hmem hne
      simp at hmem
      exact absurd hmem.2.1 hne
    · intro h; exact absurd h0 h
    · intro _ h; exact absurd h hl
    · intro _ h; exact absurd h hl
  · rw [hm]
    refine ⟨?_, ?_, ?_, ?_⟩
    · intro idx ret len hmem hne
      simp at hmem
      rcases hmem with ⟨-, rfl, -⟩ | ⟨rfl, rfl, rfl⟩
      · exact absurd rfl hne
      · simp
    · intro h; exact absurd h0 h
    · intro _ _ _; simp
    · intro _ _ h; exact absurd h h3
  · rw [hm]
    refine ⟨?_, ?_, ?_, ?_⟩
    · intro idx ret len hmem hne
      simp at hmem
      rcases hmem with ⟨-, rfl, -⟩ | ⟨-, rfl, -⟩ | ⟨rfl, rfl, rfl⟩
      · exact absurd rfl hne
      · exact absurd rfl hne
      · simp
    · intro h; exact absurd h0 h
    · intro _ _ h; exact absurd h3 h
    · intro _ _ _ _; simp
  · rw [hm]
    refine ⟨?_, ?_, ?_, ?_⟩
    · intro idx ret len hmem hne
      simp at hmem
      rcases hmem with ⟨-, rfl, -⟩ | ⟨-, rfl, -⟩ | ⟨-, rfl, -⟩
      · exact absurd rfl hne
      · exact absurd rfl hne
      · exact absurd rfl hne
    · intro h; exact absurd h0 h
    · intro _ _ h; exact absurd h3 h
    · intro _ _ _ h; exact absurd h2 h

/-- Witness of claim C3: a failing root load (code 2), a failing proof load
(code 1) and a failing leaves load (code -5) each end the run with that code
and no later call. -/
theorem load_failure_terminal_witness :
    ((main (failingHost 0 2) acceptAll zeroStack).exit = 2 ∧
      (main (failingHost 0 2) acceptAll zeroStack).trace = [Call.load 0 2 0]) ∧
    ((main (failingHost 3 1) acceptAll zeroStack).exit = 1 ∧
      (main (failingHost 3 1) acceptAll zeroStack).trace =
        [Call.load 0 CKB_SUCCESS 32, Call.load 3 1 0]) ∧
    ((main (failingHost 2 (-5)) acceptAll zeroStack).exit = -5 ∧
      (main (failingHost 2 (-5)) acceptAll zeroStack).trace =
        [Call.load 0 CKB_SUCCESS 32, Call.load 3 CKB_SUCCESS 8, Call.load 2 (-5) 0]) :=
  ⟨(load_failure_terminal (failingHost 0 2) acceptAll zeroStack).2.1 (by decide),
   (load_failure_terminal (failingHost 3 1) acceptAll zeroStack).2.2.1
     (by decide) (by decide) (by decide),
   (load_failure_terminal (failingHost 2 (-5)) acceptAll zeroStack).2.2.2
     (by decide) (by decide) (by decide) (by decide)⟩

/-- Claim C4: whenever `main` calls `mmr_verify`, the `mmr_size` argument is
the little-endian value of the first 8 bytes of the proof buffer (which always
has 32768 bytes), the sum of `proof_buffer[i] * 256 ^ i` for `i` from 0 to 7;
when the host wrote at least 8 bytes these are the first 8 bytes it wrote. -/
theorem mmr_size_little_endian (host : Host) (v : Verifier) (stack : Stack)
    (args : VerifyArgs) (r : Int) (h : Call.verify args r ∈ (main host v stack).trace) :
    (proofLoad host stack).2.1.length = 32 * 1024 ∧
    args.mmr_size =
      ∑ i in Finset.range 8, ((proofLoad host stack).2.1.getD i 0).val * 256 ^ i ∧
    (8 ≤ (proofResp host).data.length →
      args.mmr_size =
        ∑ i in Finset.range 8, ((proofResp host).data.getD i 0).val * 256 ^ i) := by
  have hlen := proofLoad_length host stack
  have hargs : args = builtArgs host stack := by
    rcases main_cases host v stack with ⟨h0, hm⟩ | ⟨h0, hl, hm⟩ | ⟨h0, hl, h3, hm⟩ |
      ⟨h0, hl, h3, h2, hm⟩ | ⟨h0, hl, h3, h2, hm⟩ <;> rw [hm] at h <;> simp at h
    exact h.1
  subst hargs
  have hsum := load_u64_eq_sum (proofLoad host stack).2.1 (by rw [hlen]; norm_num)
  have hsize : (builtArgs host stack).mmr_size = load_u64 (proofLoad host stack).2.1 := by
    simp only [builtArgs]
  rw [hsize, hsum]
  refine ⟨hlen, rfl, ?_⟩
  intro h8
  apply Finset.sum_congr rfl
  intro i hi
  have hi8 : i < 8 := Finset.mem_range.mp hi
  have hdata : (proofLoad host stack).2.1.getD i 0 = (proofResp host).data.getD i 0 := by
    simp only [proofLoad, ckb_load_witness, length_stackArray, Nat.min_self]
    rw [List.getD_append]
    · simp only [List.getD_eq_getElem?_getD, List.getElem?_take, proofResp]
      rw [if_pos (by omega)]
    · simp [List.length_take]
      have hsame : (host 0 3 CKB_SOURCE_INPUT).data.length = (proofResp host).data.length :=
        rfl
      omega
  rw [hdata]

/-- Witness of claim C4 on a host whose proof witness starts with the bytes
1, 2, 0, 0, 0, 0, 0, 0. -/
theorem mmr_size_little_endian_witness :
    (proofLoad goodHost zeroStack).2.1.length = 32 * 1024 ∧
    (builtArgs goodHost zeroStack).mmr_size =
      ∑ i in Finset.range 8, ((proofLoad goodHost zeroStack).2.1.getD i 0).val * 256 ^ i ∧
    (8 ≤ (proofResp goodHost).data.length →
      (builtArgs goodHost zeroStack).mmr_size =
        ∑ i in Finset.range 8, ((proofResp goodHost).data.getD i 0).val * 256 ^ i) :=
  mmr_size_little_endian goodHost acceptAll zeroStack (builtArgs goodHost zeroStack) 0
    (by
      rw [main_all_loaded goodHost acceptAll zeroStack (by decide) (by decide) (by decide)
        (by decide)]
      simp [acceptAll])

/-- Claim C5: when the three loads succeed, the host wrote the 32 root bytes,
a proof witness of `L` bytes with `8 ≤ L ≤ 32768` and a leaves witness of
`M ≤ 32768` bytes, then `mmr_verify` is called with the loaded data: the root
argument is the 32 loaded bytes with length 32, the proof reader is bound to
the proof buffer itself from offset 8 with length `L - 8`, so that it hands
out bytes 8 to `L` of the witness, and the leaf reader is bound to the leaves
buffer itself with length `M`, so that it hands out the whole leaves witness. -/
theorem verify_receives_loaded_data (host : Host) (v : Verifier) (stack : Stack) (L M : Nat)
    (h0 : (rootResp host).ret = CKB_SUCCESS) (h0l : (rootResp host).reported = 32)
    (h0d : (rootResp host).data.length = 32)
    (h3 : (proofResp host).ret = CKB_SUCCESS) (h3l : (proofResp host).reported = L)
    (h3d : (proofResp host).data.length = L) (hL8 : 8 ≤ L) (hL : L ≤ 32768)
    (h2 : (leavesResp host).ret = CKB_SUCCESS) (h2l : (leavesResp host).reported = M)
    (h2d : (leavesResp host).data.length = M) (hM : M ≤ 32768) :
    ∃ args, (main host v stack).trace.getLast? = some (Call.verify args (v args)) ∧
      (main host v stack).exit = v args ∧
      args.root = (rootResp host).data ∧ args.root_len = 32 ∧
      args.proof_reader.buffer = (proofLoad host stack).2.1.drop 8 ∧
      args.proof_reader.length = L - 8 ∧
      args.proof_reader.contents = (proofResp host).data.drop 8 ∧
      (proofLoad host stack).2.1.take L = (proofResp host).data ∧
      args.leaf_reader.buffer = (leavesLoad host stack).2.1 ∧
      args.leaf_reader.length = M ∧
      args.leaf_reader.contents = (leavesResp host).data := by
  refine ⟨builtArgs host stack, ?_⟩
  rw [main_all_loaded host v stack h0 h0l h3 h2]
  have hp := proofLoad_fits host stack (by rw [h3d]; omega)
  have hq := leavesLoad_fits host stack (by rw [h2d]; omega)
  have hlen : ((proofLoad host stack).2.2 + UINT64_MOD - 8) % UINT64_MOD = L - 8 := by
    rw [proofLoad_reported, h3l]
    exact sub8_in_range L hL8 (by unfold UINT64_MOD; omega)
  refine ⟨by simp, rfl, ?_, rfl, ?_, ?_, ?_, ?_, ?_, ?_, ?_⟩
  · simp only [builtArgs]
    exact rootLoad_fits host stack h0d
  · simp only [builtArgs, mmr_default_buffer_reader_init]
  · simp only [builtArgs, mmr_default_buffer_reader_init]
    exact hlen
  · simp only [builtArgs, mmr_default_buffer_reader_init, mmr_default_buffer_reader_t.contents]
    rw [hlen, hp, List.drop_append_of_le_length (by omega),
      List.take_append_of_le_length (by simp; omega), List.take_of_length_le (by simp; omega)]
  · rw [hp, List.take_append_of_le_length (by omega), List.take_of_length_le (by omega)]
  · simp only [builtArgs, mmr_default_buffer_reader_init]
  · simp only [builtArgs, mmr_default_buffer_reader_init]
    rw [leavesLoad_reported, h2l]
  · simp only [builtArgs, mmr_default_buffer_reader_init, mmr_default_buffer_reader_t.contents]
    rw [leavesLoad_reported, h2l, hq, List.take_append_of_le_length (by omega),
      List.take_of_length_le (by omega)]

/-- Witness of claim C5 on a host with a 32-byte root, a 9-byte proof and a
2-byte leaves witness. -/
theorem verify_receives_loaded_data_witness :
    ∃ args, (main goodHost acceptAll zeroStack).trace.getLast? =
        some (Call.verify args (acceptAll args)) ∧
      (main goodHost acceptAll zeroStack).exit = acceptAll args ∧
      args.root = (rootResp goodHost).data ∧ args.root_len = 32 ∧
      args.proof_reader.buffer = (proofLoad goodHost zeroStack).2.1.drop 8 ∧
      args.proof_reader.length = 9 - 8 ∧
      args.proof_reader.contents = (proofResp goodHost).data.drop 8 ∧
      (proofLoad goodHost zeroStack).2.1.take 9 = (proofResp goodHost).data ∧
      args.leaf_reader.buffer = (leavesLoad goodHost zeroStack).2.1 ∧
      args.leaf_reader.length = 2 ∧
      args.leaf_reader.contents = (leavesResp goodHost).data :=
  verify_receives_loaded_data goodHost acceptAll zeroStack 9 2 (by decide) (by decide)
    (by decide) (by decide) (by decide) (by decide) (by decide) (by decide) (by decide)
    (by decide) (by decide) (by decide)

/-- Claim C6, the code at the failing input: the proof load succeeds with a
4-byte witness, too short for the 8-byte size header, yet `main` performs no
check of its own, calls the verifier and returns 0 when the verifier does. -/
theorem short_proof_not_rejected :
    (proofResp shortProofHost).ret = CKB_SUCCESS ∧
    (proofResp shortProofHost).reported = 4 ∧
    (proofResp shortProofHost).data.length = 4 ∧
    (main shortProofHost acceptAll zeroStack).trace.getLast? =
      some (Call.verify (builtArgs shortProofHost zeroStack) 0) ∧
    (main shortProofHost acceptAll zeroStack).exit = 0 := by
  refine ⟨by decide, by decide, by decide, ?_⟩
  rw [main_all_loaded shortProofHost acceptAll zeroStack (by decide) (by decide) (by decide)
    (by decide)]
  exact ⟨by simp [acceptAll], rfl⟩

/-- Claim C7, the code at two failing inputs.  With a 4-byte proof witness
the proof reader gets the length `2 ^ 64 - 4` over the 32760 bytes behind its
start pointer; with 40000-byte proof and leaves witnesses the readers get the
lengths 39992 and 40000 over 32760 and 32768 bytes. -/
theorem reader_length_exceeds_buffer :
    (∃ args r, (main shortProofHost acceptAll zeroStack).trace.getLast? =
        some (Call.verify args r) ∧
      args.proof_reader.length = 2 ^ 64 - 4 ∧
      args.proof_reader.buffer.length = 32 * 1024 - 8 ∧
      ¬ args.proof_reader.length ≤ args.proof_reader.buffer.length) ∧
    (∃ args r, (main oversizeHost acceptAll zeroStack).trace.getLast? =
        some (Call.verify args r) ∧
      args.proof_reader.length = 40000 - 8 ∧
      args.proof_reader.buffer.length = 32 * 1024 - 8 ∧
      ¬ args.proof_reader.length ≤ args.proof_reader.buffer.length ∧
      args.leaf_reader.length = 40000 ∧
      args.leaf_reader.buffer.length = 32 * 1024 ∧
      ¬ args.leaf_reader.length ≤ args.leaf_reader.buffer.length) := by
  constructor
  · refine ⟨builtArgs shortProofHost zeroStack, acceptAll (builtArgs shortProofHost zeroStack),
      ?_, ?_⟩
    · rw [main_all_loaded shortProofHost acceptAll zeroStack (by decide) (by decide)
        (by decide) (by decide)]
      simp
    · have h1 : (builtArgs shortProofHost zeroStack).proof_reader.length = 2 ^ 64 - 4 := by
        simp only [builtArgs, mmr_default_buffer_reader_init, proofLoad_reported]
        decide
      have h2 : (builtArgs shortProofHost zeroStack).proof_reader.buffer.length
          = 32 * 1024 - 8 := by
        simp only [builtArgs, mmr_default_buffer_reader_init, List.length_drop,
          proofLoad_length]
      rw [h1, h2]
      exact ⟨rfl, rfl, by norm_num⟩
  · refine ⟨builtArgs oversizeHost zeroStack, acceptAll (builtArgs oversizeHost zeroStack),
      ?_, ?_⟩
    · rw [main_all_loaded oversizeHost acceptAll zeroStack (by decide) (by decide)
        (by decide) (by decide)]
      simp
    · have h1 : (builtArgs oversizeHost zeroStack).proof_reader.length = 40000 - 8 := by
        simp only [builtArgs, mmr_default_buffer_reader_init, proofLoad_reported]
        decide
      have h2 : (builtArgs oversizeHost zeroStack).proof_reader.buffer.length
          = 32 * 1024 - 8 := by
        simp only [builtArgs, mmr_default_buffer_reader_init, List.length_drop,
          proofLoad_length]
      have h3 : (builtArgs oversizeHost zeroStack).leaf_reader.length = 40000 := by
        simp only [builtArgs, mmr_default_buffer_reader_init, leavesLoad_reported]
        decide
      have h4 : (builtArgs oversizeHost zeroStack).leaf_reader.buffer.length = 32 * 1024 := by
        simp only [builtArgs, mmr_default_buffer_reader_init, leavesLoad_length]
      rw [h1, h2, h3, h4]
      exact ⟨rfl, rfl, by norm_num, rfl, rfl, by norm_num⟩

/-- Claim C8 as stated is false: a failed root load whose code is -1, a root
size mismatch, and a failed verification whose code is -1 are three failure
classes that all end `main` with the same exit code -1. -/
theorem failure_codes_collide :
    ((rootResp (failingHost 0 (-1))).ret ≠ CKB_SUCCESS ∧
      (main (failingHost 0 (-1)) acceptAll zeroStack).exit = -1) ∧
    ((rootResp shortRootHost).ret = CKB_SUCCESS ∧ (rootResp shortRootHost).reported ≠ 32 ∧
      (main shortRootHost acceptAll zeroStack).exit = -1) ∧
    ((main goodHost (rejectWith (-1)) zeroStack).trace.getLast? =
        some (Call.verify (builtArgs goodHost zeroStack) (-1)) ∧
      (main goodHost (rejectWith (-1)) zeroStack).exit = -1) := by
  refine ⟨⟨by decide, ?_⟩, ⟨by decide, by decide, ?_⟩, ?_⟩
  · rw [main_root_fail _ _ _ (by decide)]; rfl
  · rw [main_root_size _ _ _ (by decide) (by decide)]
  · rw [main_all_loaded goodHost (rejectWith (-1)) zeroStack (by decide) (by decide)
      (by decide) (by decide)]
    exact ⟨by simp [rejectWith], rfl⟩

/-- Claim C8 as amended: `main` passes failure codes through unchanged.  A run
that ends on a failed load returns the code `c` of the host, a run with a root
size mismatch returns -1, a run that ends on a failed verification returns the
code `r` of the verifier; all three are non-zero, and they are pairwise
different as soon as `c`, -1 and `r` are pairwise different. -/
theorem failure_codes_pass_through (hostL hostM hostV : Host) (vL vM vV : Verifier)
    (sL sM sV : Stack) (idx : Nat) (c : Int) (len : Nat) (args : VerifyArgs) (r : Int)
    (hL : (main hostL vL sL).trace.getLast? = some (Call.load idx c len))
    (hc : c ≠ CKB_SUCCESS)
    (hM : (rootResp hostM).ret = CKB_SUCCESS) (hMl : (rootResp hostM).reported ≠ 32)
    (hV : (main hostV vV sV).trace.getLast? = some (Call.verify args r)) (hr : r ≠ 0)
    (hc1 : c ≠ -1) (hr1 : r ≠ -1) (hrc : r ≠ c) :
    (main hostL vL sL).exit = c ∧ (main hostM vM sM).exit = -1 ∧ (main hostV vV sV).exit = r ∧
    (main hostL vL sL).exit ≠ 0 ∧ (main hostM vM sM).exit ≠ 0 ∧ (main hostV vV sV).exit ≠ 0 ∧
    (main hostL vL sL).exit ≠ (main hostM vM sM).exit ∧
    (main hostL vL sL).exit ≠ (main hostV vV sV).exit ∧
    (main hostM vM sM).exit ≠ (main hostV vV sV).exit := by
  have eL := exit_of_last_load hostL vL sL idx c len hL hc
  have eM : (main hostM vM sM).exit = -1 := by rw [main_root_size hostM vM sM hM hMl]
  have eV := exit_of_last_verify hostV vV sV args r hV
  rw [eL, eM, eV]
  have hc0 : c ≠ 0 := hc
  exact ⟨rfl, rfl, rfl, hc0, by decide, hr, hc1, fun h => hrc h.symm, fun h => hr1 h.symm⟩

/-- Witness of the amended claim C8: a proof load failing with code 2, a
31-byte root and a verifier failing with code 7 give the exit codes 2, -1
and 7. -/
theorem failure_codes_pass_through_witness :
    (main (failingHost 3 2) acceptAll zeroStack).exit = 2 ∧
    (main shortRootHost acceptAll zeroStack).exit = -1 ∧
    (main goodHost (rejectWith 7) zeroStack).exit = 7 ∧
    (main (failingHost 3 2) acceptAll zeroStack).exit ≠ 0 ∧
    (main shortRootHost acceptAll zeroStack).exit ≠ 0 ∧
    (main goodHost (rejectWith 7) zeroStack).exit ≠ 0 ∧
    (main (failingHost 3 2) acceptAll zeroStack).exit ≠
      (main shortRootHost acceptAll zeroStack).exit ∧
    (main (failingHost 3 2) acceptAll zeroStack).exit ≠
      (main goodHost (rejectWith 7) zeroStack).exit ∧
    (main shortRootHost acceptAll zeroStack).exit ≠
      (main goodHost (rejectWith 7) zeroStack).exit :=
  failure_codes_pass_through (failingHost 3 2) shortRootHost goodHost acceptAll acceptAll
    (rejectWith 7) zeroStack zeroStack zeroStack 3 2 0 (builtArgs goodHost zeroStack) 7
    (by rw [main_proof_fail _ _ _ (by decide) (by decide) (by decide)]; rfl)
    (by decide) (by decide) (by decide)
    (by
      rw [main_all_loaded goodHost (rejectWith 7) zeroStack (by decide) (by decide)
        (by decide) (by decide)]
      simp [rejectWith])
    (by decide) (by decide) (by decide) (by decide)

/-- Claim C9: `main` emits nothing on a run that returns 0; its log is either
empty or the single message "Error loading root buffer", and it is that
message exactly when the root load succeeded with a reported length other
than 32. -/
theorem debug_log_only_on_size_mismatch (host : Host) (v : Verifier) (stack : Stack) :
    ((main host v stack).exit = 0 → (main host v stack).log = []) ∧
    ((main host v stack).log = ["Error loading root buffer"] ↔
      (rootResp host).ret = CKB_SUCCESS ∧ (rootResp host).reported ≠ 32) ∧
    ((main host v stack).log = [] ∨
      (main host v stack).log = ["Error loading root buffer"]) := by
  rcases main_cases host v stack with ⟨h0, hm⟩ | ⟨h0, hl, hm⟩ | ⟨h0, hl, h3, hm⟩ |
    ⟨h0, hl, h3, h2, hm⟩ | ⟨h0, hl, h3, h2, hm⟩
  · rw [hm]; simp [h0]
  · rw [hm]; simp [h0, hl]
  · rw [hm]; simp [h0, hl]
  · rw [hm]; simp [h0, hl]
  · rw [hm]; simp [h0, hl]

/-- Witness of claim C9: a run that returns 0 has an empty log. -/
theorem debug_log_only_on_size_mismatch_witness :
    (main goodHost acceptAll zeroStack).log = [] :=
  (debug_log_only_on_size_mismatch goodHost acceptAll zeroStack).1
    (by
      rw [main_all_loaded goodHost acceptAll zeroStack (by decide) (by decide) (by decide)
        (by decide)]
      rfl)

/-- Claim C10, the code at the failing input: with the same host answers (a
4-byte proof witness) and the same verifier, two runs that differ only in the
earlier contents of the stack hand different `mmr_size` values to
`mmr_verify` (0 and 0x0101010100000000) and return different exit codes. -/
theorem outcome_depends_on_prior_stack :
    (main shortProofHost sizeIsZero zeroStack).trace.getLast? =
      some (Call.verify (builtArgs shortProofHost zeroStack) 0) ∧
    (main shortProofHost sizeIsZero onesStack).trace.getLast? =
      some (Call.verify (builtArgs shortProofHost onesStack) 1) ∧
    (builtArgs shortProofHost zeroStack).mmr_size = 0 ∧
    (builtArgs shortProofHost onesStack).mmr_size = 0x0101010100000000 ∧
    (main shortProofHost sizeIsZero zeroStack).exit = 0 ∧
    (main shortProofHost sizeIsZero onesStack).exit = 1 := by
  have hz : (builtArgs shortProofHost zeroStack).mmr_size = 0 := by
    simp only [builtArgs, load_u64, proofLoad_short]
    rfl
  have ho : (builtArgs shortProofHost onesStack).mmr_size = 0x0101010100000000 := by
    simp only [builtArgs, load_u64, proofLoad_short]
    rfl
  have vz : sizeIsZero (builtArgs shortProofHost zeroStack) = 0 := by
    simp only [sizeIsZero, hz]; rfl
  have vo : sizeIsZero (builtArgs shortProofHost onesStack) = 1 := by
    simp only [sizeIsZero, ho]; rfl
  rw [main_all_loaded shortProofHost sizeIsZero zeroStack (by decide) (by decide) (by decide)
    (by decide),
    main_all_loaded shortProofHost sizeIsZero onesStack (by decide) (by decide) (by decide)
    (by decide), vz, vo]
  exact ⟨by simp, by simp, hz, ho, rfl, rfl⟩

end MmrEntry
